import Mathlib

/-!
Verification of substrate's wasm-runtime host abstraction
(`client/executor/common/src/wasm_runtime.rs`) and of two helper functions of
the CLI run command (`client/cli/src/commands/run_cmd.rs`).

Shallow embedding conventions:
* Rust `u32` values appearing here are only compared and added in ranges far
  below `2^32`, so they are embedded as `Nat`.
* Byte buffers (`&[u8]`, `Vec<u8>`) are embedded as `List Nat`.
* `Result<T, E>` is embedded as `Except E T`.
* A Rust trait with a required method and provided (default) methods is
  embedded as a structure whose fields are the required methods; the provided
  methods become Lean functions over that structure.  `&mut self` receivers are
  embedded by explicit state passing.
-/

namespace WasmRuntime

/-- `CallContext` (re-exported from `sp_core::traits`): marker distinguishing
consensus-critical (`Onchain`) from auxiliary (`Offchain`) execution. -/
inductive CallContext where
  | Onchain
  | Offchain
deriving DecidableEq, Repr

/-- Modelled from the spec: `AllocationStats` (from `sc_allocator`, not among
the given sources) is an immutable post-call snapshot of current/peak bytes
allocated by the guest heap. -/
structure AllocationStats where
  bytes_current : Nat
  bytes_peak : Nat
deriving DecidableEq, Repr

/-- Modelled from the spec: the error taxonomy of §7 (`crate::error::Error` is
not among the given sources): compile/instantiate failures, missing exports,
guest traps and heap-ceiling exhaustion, all returned as values. -/
inductive Error where
  | CompileOrInstantiate
  | MethodNotFound
  | Trap
  | OutOfMemory
deriving DecidableEq, Repr

/-- `HeapAllocStrategy`: the heap pages allocation strategy the wasm runtime
should use.  A heap page is 64KiB of memory. -/
inductive HeapAllocStrategy where
  /-- Allocate a static number of heap pages: the initial number of heap pages
  requested by the wasm file plus `extra_pages`; `offchain_heap_max_allocation`
  overrides the maximum possible heap allocation in the offchain context. -/
  | Static (extra_pages : Nat) (offchain_heap_max_allocation : Option Nat)
  /-- Allocate the initial heap pages as requested by the wasm file and then
  allow the memory to grow dynamically up to `maximum_pages` (or the 4GB WASM
  limit when `None`). -/
  | Dynamic (maximum_pages : Option Nat) (offchain_heap_max_allocation : Option Nat)
deriving DecidableEq, Repr

/-- Default heap allocation pages (`DEFAULT_HEAP_ALLOC_PAGES`). -/
def DEFAULT_HEAP_ALLOC_PAGES : Nat := 2048

/-- The default extra heap pages for offchain execution
(`DEFAULT_OFFCHAIN_HEAP_PAGES`), 30x the onchain default. -/
def DEFAULT_OFFCHAIN_HEAP_PAGES : Nat := 61440

/-- The default max allocation for offchain execution
(`DEFAULT_OFFCHAIN_HEAP_MAX_ALLOCATION`), 3GiB. -/
def DEFAULT_OFFCHAIN_HEAP_MAX_ALLOCATION : Nat := 3221225472

/-- Default heap allocation strategy for onchain execution
(`DEFAULT_HEAP_ALLOC_STRATEGY`). -/
def DEFAULT_HEAP_ALLOC_STRATEGY : HeapAllocStrategy :=
  HeapAllocStrategy.Static DEFAULT_HEAP_ALLOC_PAGES none

/-- Default heap allocation strategy for offchain execution
(`DEFAULT_OFFCHAIN_HEAP_ALLOC_STRATEGY`). -/
def DEFAULT_OFFCHAIN_HEAP_ALLOC_STRATEGY : HeapAllocStrategy :=
  HeapAllocStrategy.Static DEFAULT_OFFCHAIN_HEAP_PAGES
    (some DEFAULT_OFFCHAIN_HEAP_MAX_ALLOCATION)

/-- The `WasmInstance` trait, embedded over an abstract engine state `σ`
threaded in place of the Rust `&mut self` receiver.  Its single required
method is `call_with_allocation_stats`; the provided methods `call` and
`call_export` are the Lean functions below, translated from the trait's
default bodies. -/
structure WasmInstanceImpl (σ : Type) where
  /-- Required method `call_with_allocation_stats`: call a method on this WASM
  instance; before execution, the instance is reset.  Returns the encoded
  result on success together with the engine's allocation statistics. -/
  call_with_allocation_stats :
    σ → String → List Nat → CallContext → (Except Error (List Nat) × Option AllocationStats) × σ

/-- Provided method `WasmInstance::call`, translated from its default body:
`self.call_with_allocation_stats(method, data, context).0` (the transitional
`log::info!` diagnostic on the path is incidental instrumentation with no
effect on the returned value or state). -/
def WasmInstanceImpl.call {σ : Type} (self : WasmInstanceImpl σ) (s : σ)
    (method : String) (data : List Nat) (context : CallContext) :
    Except Error (List Nat) × σ :=
  let r := self.call_with_allocation_stats s method data context
  (r.fst.fst, r.snd)

/-- Provided method `WasmInstance::call_export`, translated from its default
body: `self.call(method.into(), data, context)`. -/
def WasmInstanceImpl.call_export {σ : Type} (self : WasmInstanceImpl σ) (s : σ)
    (method : String) (data : List Nat) (context : CallContext) :
    Except Error (List Nat) × σ :=
  self.call s method data context

/-- A heap page is exactly 64KiB = 65536 bytes. -/
def PAGE_SIZE : Nat := 65536

/-- The absolute maximum size supported by WASM linear memory, 4GB, expressed
in 64KiB pages. -/
def WASM_MAX_PAGES : Nat := 65536

/-- Modelled from the spec: the dynamic strategy's growth cap — up to
`maximum_pages` when set, otherwise up to the 4GB WASM absolute ceiling. -/
def dynamicCap : Option Nat → Nat
  | some p => p
  | none => WASM_MAX_PAGES

/-- Modelled from the spec: the outcome of running a guest export's body —
either a sandbox violation (`trap`), or a normal return described by the
sequence of heap page allocation requests it makes, its output bytes, and the
heap contents and global values it leaves behind. -/
inductive GuestOutcome where
  | trap
  | normal (allocRequests : List Nat) (output heapAfter globalsAfter : List Nat)

/-- Modelled from the spec: a guest module's observable interface — its
declared initial heap pages, initial values of its globals, and for each
exported method a deterministic body mapping the input bytes to an outcome
(absent entries are non-exported methods).  The engine backend that realizes
this is not among the given sources. -/
structure WasmModule where
  initialPages : Nat
  initialGlobals : List Nat
  exports : String → Option (List Nat → GuestOutcome)

/-- Modelled from the spec: the guest-visible mutable state of one instance —
pages handed out by the allocator, heap contents, and guest globals. -/
structure GuestState where
  allocatedPages : Nat
  heap : List Nat
  globals : List Nat
deriving DecidableEq, Repr

/-- Modelled from the spec: the linear-memory limits fixed at instantiation.
Under `Static` the memory is created already at its ceiling (module-declared
initial pages plus `extra_pages`) with an equal maximum, so no growth is
permitted afterwards; under `Dynamic` it starts at the module-declared initial
pages and may grow up to `dynamicCap maximum_pages`. -/
structure MemoryLimits where
  initialSizePages : Nat
  maxSizePages : Nat
deriving DecidableEq, Repr

/-- Modelled from the spec: the memory limits implied by a heap allocation
strategy for a given module. -/
def memoryLimits (M : WasmModule) : HeapAllocStrategy → MemoryLimits
  | HeapAllocStrategy.Static E _ =>
      MemoryLimits.mk (M.initialPages + E) (M.initialPages + E)
  | HeapAllocStrategy.Dynamic mp _ =>
      MemoryLimits.mk M.initialPages (dynamicCap mp)

/-- Modelled from the spec: a request to grow the linear memory by `req`
pages from a current size of `cur` pages succeeds exactly when the result
stays within the instantiated maximum, and otherwise fails with
`OutOfMemory`. -/
def growMemory (lim : MemoryLimits) (cur req : Nat) : Except Error Nat :=
  if cur + req ≤ lim.maxSizePages then Except.ok (cur + req)
  else Except.error Error.OutOfMemory

/-- Modelled from the spec: the ceiling (in pages) enforced on guest heap
allocation during one call.  It is the instantiated memory ceiling, except
that `offchain_heap_max_allocation` (a byte count), when set, overrides the
logical ceiling for `Offchain`-context calls only, leaving `Onchain` behavior
untouched. -/
def allocLimitPages (M : WasmModule) (s : HeapAllocStrategy) (ctx : CallContext) : Nat :=
  let memCeil := (memoryLimits M s).maxSizePages
  match ctx, s with
  | CallContext.Offchain, HeapAllocStrategy.Static _ (some b) => min memCeil (b / PAGE_SIZE)
  | CallContext.Offchain, HeapAllocStrategy.Dynamic _ (some b) => min memCeil (b / PAGE_SIZE)
  | _, _ => memCeil

/-- Modelled from the spec: run a sequence of heap allocation requests
(in pages) against the per-call ceiling.  Any request that would take the
total beyond the ceiling fails deterministically with `OutOfMemory` and never
succeeds; growth within a call is monotonic. -/
def runAllocs (limit : Nat) : Nat → List Nat → Except Error Nat
  | cur, [] => Except.ok cur
  | cur, r :: rs =>
      if cur + r ≤ limit then runAllocs limit (cur + r) rs
      else Except.error Error.OutOfMemory

/-- Modelled from the spec: execute one dispatched call on a guest state.
Dispatches to the export named `method` (failing with `MethodNotFound`
without touching any allocation accounting when absent), runs the body's
allocation requests against the strategy's ceiling, and reports the
resulting output, allocation statistics and post-call guest state. -/
def execCall (M : WasmModule) (s : HeapAllocStrategy) (st : GuestState)
    (method : String) (data : List Nat) (ctx : CallContext) :
    (Except Error (List Nat) × Option AllocationStats) × GuestState :=
  match M.exports method with
  | none => ((Except.error Error.MethodNotFound, none), st)
  | some body =>
    match body data with
    | GuestOutcome.trap =>
        ((Except.error Error.Trap,
          some (AllocationStats.mk (st.allocatedPages * PAGE_SIZE)
            (st.allocatedPages * PAGE_SIZE))), st)
    | GuestOutcome.normal reqs output heapAfter globalsAfter =>
      match runAllocs (allocLimitPages M s ctx) st.allocatedPages reqs with
      | Except.error e =>
          ((Except.error e,
            some (AllocationStats.mk (st.allocatedPages * PAGE_SIZE)
              (st.allocatedPages * PAGE_SIZE))), st)
      | Except.ok fin =>
          ((Except.ok output,
            some (AllocationStats.mk (fin * PAGE_SIZE) (fin * PAGE_SIZE))),
           GuestState.mk fin heapAfter globalsAfter)

/-- Modelled from the spec: the exact post-instantiation baseline of the
guest state — no pages handed out, clean heap, globals at their initial
values. -/
def baseline (M : WasmModule) : GuestState :=
  GuestState.mk 0 [] M.initialGlobals

/-- Modelled from the spec: one model instance — the module and strategy it
was instantiated under, plus its current guest state. -/
structure Instance where
  module : WasmModule
  strategy : HeapAllocStrategy
  state : GuestState

/-- Modelled from the spec: resetting an instance restores it to its exact
post-instantiation baseline. -/
def resetInstance (inst : Instance) : Instance :=
  Instance.mk inst.module inst.strategy (baseline inst.module)

/-- Modelled from the spec: the canonical call operation of the model
instance.  Before executing, the instance is reset to its clean
post-instantiation baseline (heap contents and guest globals reinitialized);
then the call is executed on that baseline. -/
def Instance.call_with_allocation_stats (inst : Instance) (method : String)
    (data : List Nat) (ctx : CallContext) :
    (Except Error (List Nat) × Option AllocationStats) × Instance :=
  let r := resetInstance inst
  let e := execCall r.module r.strategy r.state method data ctx
  (e.fst, Instance.mk r.module r.strategy e.snd)

/-- Modelled from the spec: the model instance's `call`, built strictly atop
`call_with_allocation_stats` as the trait default prescribes. -/
def Instance.call (inst : Instance) (method : String) (data : List Nat)
    (ctx : CallContext) : Except Error (List Nat) × Instance :=
  let r := inst.call_with_allocation_stats method data ctx
  (r.fst.fst, r.snd)

/-- Modelled from the spec: the model instance's `call_export`, an alias for
`call` as the trait default prescribes. -/
def Instance.call_export (inst : Instance) (method : String) (data : List Nat)
    (ctx : CallContext) : Except Error (List Nat) × Instance :=
  inst.call method data ctx

end WasmRuntime

namespace WasmRuntime

/-- C1: The default heap allocation strategy constants equal exactly the
mandated values: the onchain default is `Static { extra_pages: 2048,
offchain_heap_max_allocation: None }` and the offchain default is
`Static { extra_pages: 61440, offchain_heap_max_allocation:
Some(3221225472) }`, where 3221225472 bytes is exactly 3 GiB and 61440 is 30
times 2048. -/
theorem default_heap_alloc_strategies_spec :
    DEFAULT_HEAP_ALLOC_STRATEGY = HeapAllocStrategy.Static 2048 none ∧
    DEFAULT_OFFCHAIN_HEAP_ALLOC_STRATEGY =
      HeapAllocStrategy.Static 61440 (some 3221225472) ∧
    DEFAULT_OFFCHAIN_HEAP_MAX_ALLOCATION = 3 * (1024 * 1024 * 1024) ∧
    DEFAULT_OFFCHAIN_HEAP_PAGES = 30 * DEFAULT_HEAP_ALLOC_PAGES := by
  refine ⟨rfl, rfl, by decide, by decide⟩

/-- C2: For every `WasmInstance` implementation, engine state, method name,
input buffer and `CallContext`, `call` returns exactly the first component of
`call_with_allocation_stats` (and threads the same state): it is built
strictly atop `call_with_allocation_stats`, discards only the stats, and never
diverges from it. -/
theorem call_eq_fst_call_with_allocation_stats {σ : Type}
    (self : WasmInstanceImpl σ) (s : σ) (method : String) (data : List Nat)
    (context : CallContext) :
    self.call s method data context =
      ((self.call_with_allocation_stats s method data context).fst.fst,
       (self.call_with_allocation_stats s method data context).snd) := rfl

/-- C8: For every `WasmInstance` implementation, engine state, method name,
input buffer and `CallContext`, `call_export` returns exactly the same result
(and state) as `call`: it is a naming alias with identical semantics. -/
theorem call_export_eq_call {σ : Type}
    (self : WasmInstanceImpl σ) (s : σ) (method : String) (data : List Nat)
    (context : CallContext) :
    self.call_export s method data context = self.call s method data context := rfl

/-- Helper: `growMemory` succeeds exactly when the grown size stays within the
instantiated maximum. -/
theorem growMemory_ok_iff (lim : MemoryLimits) (cur req : Nat) :
    growMemory lim cur req = Except.ok (cur + req) ↔ cur + req ≤ lim.maxSizePages := by
  unfold growMemory
  split <;> simp_all

/-- Helper: `growMemory` fails with `OutOfMemory` exactly when the grown size
exceeds the instantiated maximum. -/
theorem growMemory_oom_iff (lim : MemoryLimits) (cur req : Nat) :
    growMemory lim cur req = Except.error Error.OutOfMemory ↔
      lim.maxSizePages < cur + req := by
  unfold growMemory
  split <;> simp_all

/-- Helper: the per-call allocation ceiling never exceeds the instantiated
memory ceiling. -/
theorem allocLimitPages_le_memCeil (M : WasmModule) (s : HeapAllocStrategy)
    (ctx : CallContext) :
    allocLimitPages M s ctx ≤ (memoryLimits M s).maxSizePages := by
  unfold allocLimitPages
  cases ctx <;> cases s <;> rename_i a b <;> cases b <;>
    simp [Nat.min_le_left]

/-- C3: Under the `Onchain` call context, two executions with identical
(module, strategy, method, input) produce identical outcomes and identical
output bytes regardless of the prior guest state; and two identical `call()`
invocations in sequence on the same instance yield identical output bytes and
identical `AllocationStats`. -/
theorem onchain_call_deterministic (M : WasmModule) (s : HeapAllocStrategy)
    (st1 st2 : GuestState) (method : String) (data : List Nat) :
    (Instance.call_with_allocation_stats (Instance.mk M s st1) method data
        CallContext.Onchain).fst =
      (Instance.call_with_allocation_stats (Instance.mk M s st2) method data
        CallContext.Onchain).fst ∧
    (Instance.call_with_allocation_stats
        ((Instance.call_with_allocation_stats (Instance.mk M s st1) method data
          CallContext.Onchain).snd) method data CallContext.Onchain).fst =
      (Instance.call_with_allocation_stats (Instance.mk M s st1) method data
        CallContext.Onchain).fst ∧
    (Instance.call ((Instance.call (Instance.mk M s st1) method data
        CallContext.Onchain).snd) method data CallContext.Onchain).fst =
      (Instance.call (Instance.mk M s st1) method data CallContext.Onchain).fst :=
  ⟨rfl, rfl, rfl⟩

/-- C4: For every module instantiated under `Static { extra_pages: E }`, the
heap ceiling at instantiation equals the module-declared initial pages plus
`E`, no heap growth is permitted after instantiation (the instantiated size
already equals the maximum and any further growth request fails), and every
allocation request beyond the ceiling fails with `OutOfMemory` and never
succeeds, in every call context. -/
theorem static_heap_ceiling (M : WasmModule) (E : Nat) (ov : Option Nat)
    (ctx : CallContext) (g cur req : Nat) (rs : List Nat)
    (hg : 1 ≤ g) (hreq : M.initialPages + E < cur + req) :
    (memoryLimits M (HeapAllocStrategy.Static E ov)).initialSizePages =
      M.initialPages + E ∧
    (memoryLimits M (HeapAllocStrategy.Static E ov)).maxSizePages =
      (memoryLimits M (HeapAllocStrategy.Static E ov)).initialSizePages ∧
    growMemory (memoryLimits M (HeapAllocStrategy.Static E ov))
        (memoryLimits M (HeapAllocStrategy.Static E ov)).initialSizePages g =
      Except.error Error.OutOfMemory ∧
    runAllocs (allocLimitPages M (HeapAllocStrategy.Static E ov) ctx)
        cur (req :: rs) = Except.error Error.OutOfMemory := by
  refine ⟨rfl, rfl, ?_, ?_⟩
  · rw [growMemory_oom_iff]
    simp [memoryLimits]
    omega
  · have hle := allocLimitPages_le_memCeil M (HeapAllocStrategy.Static E ov) ctx
    simp [memoryLimits] at hle
    unfold runAllocs
    rw [if_neg]
    omega

/-- Witness for C4 at scenario A's numbers: a module declaring 16 initial
pages under `Static { extra_pages: 2048 }` has ceiling 2064 pages and a
request for 2065 pages fails with `OutOfMemory`. -/
theorem static_heap_ceiling_witness :
    1 ≤ 1 ∧
    (WasmModule.mk 16 [] fun _ => none).initialPages + 2048 < 0 + 2065 ∧
    runAllocs (allocLimitPages (WasmModule.mk 16 [] fun _ => none)
        (HeapAllocStrategy.Static 2048 none) CallContext.Onchain) 0 [2065] =
      Except.error Error.OutOfMemory :=
  ⟨by decide, by decide,
    (static_heap_ceiling (WasmModule.mk 16 [] fun _ => none) 2048 none
      CallContext.Onchain 1 0 2065 [] (by decide) (by decide)).2.2.2⟩

/-- C5: For every instance under `Dynamic { maximum_pages }`, heap growth is
capped exactly at `P` pages when `maximum_pages = Some P`, and at the 4 GiB
absolute ceiling (65536 pages of 64 KiB) when `maximum_pages = None`. -/
theorem dynamic_growth_cap (M : WasmModule) (P : Nat) (ov : Option Nat)
    (cur req : Nat) :
    (memoryLimits M (HeapAllocStrategy.Dynamic (some P) ov)).maxSizePages = P ∧
    (memoryLimits M (HeapAllocStrategy.Dynamic none ov)).maxSizePages =
      WASM_MAX_PAGES ∧
    WASM_MAX_PAGES * PAGE_SIZE = 4 * (1024 * 1024 * 1024) ∧
    (growMemory (memoryLimits M (HeapAllocStrategy.Dynamic (some P) ov)) cur req =
        Except.ok (cur + req) ↔ cur + req ≤ P) ∧
    (growMemory (memoryLimits M (HeapAllocStrategy.Dynamic (some P) ov)) cur req =
        Except.error Error.OutOfMemory ↔ P < cur + req) ∧
    (growMemory (memoryLimits M (HeapAllocStrategy.Dynamic none ov)) cur req =
        Except.ok (cur + req) ↔ cur + req ≤ WASM_MAX_PAGES) ∧
    (growMemory (memoryLimits M (HeapAllocStrategy.Dynamic none ov)) cur req =
        Except.error Error.OutOfMemory ↔ WASM_MAX_PAGES < cur + req) := by
  refine ⟨rfl, rfl, by decide, ?_, ?_, ?_, ?_⟩
  · rw [growMemory_ok_iff]
    simp [memoryLimits, dynamicCap]
  · rw [growMemory_oom_iff]
    simp [memoryLimits, dynamicCap]
  · rw [growMemory_ok_iff]
    simp [memoryLimits, dynamicCap]
  · rw [growMemory_oom_iff]
    simp [memoryLimits, dynamicCap]

/-- C6: Before executing any call (`call`, `call_with_allocation_stats` or
`call_export`), the instance is reset to its exact post-instantiation
baseline, so a call's observable behavior is independent of any guest state
mutated by a previous call on the same instance. -/
theorem call_resets_guest_state (M : WasmModule) (s : HeapAllocStrategy)
    (st1 st2 : GuestState) (method : String) (data : List Nat)
    (ctx : CallContext) :
    Instance.call_with_allocation_stats (Instance.mk M s st1) method data ctx =
      Instance.call_with_allocation_stats (Instance.mk M s st2) method data ctx ∧
    Instance.call (Instance.mk M s st1) method data ctx =
      Instance.call (Instance.mk M s st2) method data ctx ∧
    Instance.call_export (Instance.mk M s st1) method data ctx =
      Instance.call_export (Instance.mk M s st2) method data ctx ∧
    resetInstance (Instance.mk M s st1) = Instance.mk M s (baseline M) :=
  ⟨rfl, rfl, rfl, rfl⟩

/-- C7: For every method name absent from the module's exports, the call fails
with a `MethodNotFound` error, returns no `AllocationStats`, and leaves the
guest state at the untouched post-reset baseline (no allocation accounting is
mutated). -/
theorem method_not_found_no_stats (M : WasmModule) (s : HeapAllocStrategy)
    (st : GuestState) (method : String) (data : List Nat) (ctx : CallContext)
    (h : M.exports method = none) :
    Instance.call_with_allocation_stats (Instance.mk M s st) method data ctx =
      ((Except.error Error.MethodNotFound, none), Instance.mk M s (baseline M)) ∧
    (Instance.call (Instance.mk M s st) method data ctx).fst =
      Except.error Error.MethodNotFound := by
  have h1 : Instance.call_with_allocation_stats (Instance.mk M s st) method data ctx =
      ((Except.error Error.MethodNotFound, none), Instance.mk M s (baseline M)) := by
    simp [Instance.call_with_allocation_stats, resetInstance, execCall, h]
  exact ⟨h1, by simp [Instance.call, h1]⟩

/-- Witness for C7: a module exporting nothing answers every call with
`MethodNotFound` and no stats. -/
theorem method_not_found_no_stats_witness :
    (WasmModule.mk 1 [] fun _ => none).exports "main" = none ∧
    Instance.call_with_allocation_stats
        (Instance.mk (WasmModule.mk 1 [] fun _ => none)
          DEFAULT_HEAP_ALLOC_STRATEGY (GuestState.mk 3 [7] [9]))
        "main" [] CallContext.Onchain =
      ((Except.error Error.MethodNotFound, none),
        Instance.mk (WasmModule.mk 1 [] fun _ => none)
          DEFAULT_HEAP_ALLOC_STRATEGY
          (baseline (WasmModule.mk 1 [] fun _ => none))) :=
  ⟨rfl,
    (method_not_found_no_stats (WasmModule.mk 1 [] fun _ => none)
      DEFAULT_HEAP_ALLOC_STRATEGY (GuestState.mk 3 [7] [9]) "main" []
      CallContext.Onchain rfl).1⟩

end WasmRuntime

namespace RunCmd

/-- `is_node_name_valid`: check whether a node name is considered valid.
Embedded from `run_cmd.rs`, parameterized by the crate-level constant
`NODE_NAME_MAX_LENGTH` (defined outside the given sources, so the claim is
settled for every value of it).  The Rust regex `[\\.@]` matches the
characters backslash, dot and at-sign; the regex `^https?:` matches names
starting with "http:" or "https:". -/
def is_node_name_valid (nodeNameMaxLength : Nat) (name : String) :
    Except String Unit :=
  if name = "" then Except.error "Node name cannot be empty"
  else if nodeNameMaxLength ≤ name.length then Except.error "Node name too long"
  else if name.data.any (fun c => c == '\\' || c == '.' || c == '@') then
    Except.error "Node name should not contain invalid chars such as '.' and '@'"
  else if name.startsWith "http:" || name.startsWith "https:" then
    Except.error "Node name should not contain urls"
  else Except.ok ()

/-- `RpcMethods` (from `arg_enums`, outside the given sources; only
(in)equality with `Unsafe` is used by `rpc_interface`). -/
inductive RpcMethods where
  | Auto
  | Safe
  | Unsafe
deriving DecidableEq, Repr

/-- An IPv4 address as its four octets. -/
structure Ipv4Addr where
  octets : List Nat
deriving DecidableEq, Repr

/-- `Ipv4Addr::UNSPECIFIED`, i.e. `0.0.0.0`. -/
def Ipv4Addr.UNSPECIFIED : Ipv4Addr := Ipv4Addr.mk [0, 0, 0, 0]

/-- `Ipv4Addr::LOCALHOST`, i.e. `127.0.0.1`. -/
def Ipv4Addr.LOCALHOST : Ipv4Addr := Ipv4Addr.mk [127, 0, 0, 1]

/-- An IPv6 address as its eight 16-bit segments. -/
structure Ipv6Addr where
  segments : List Nat
deriving DecidableEq, Repr

/-- `Ipv6Addr::UNSPECIFIED`, i.e. `::`. -/
def Ipv6Addr.UNSPECIFIED : Ipv6Addr := Ipv6Addr.mk [0, 0, 0, 0, 0, 0, 0, 0]

/-- `Ipv6Addr::LOCALHOST`, i.e. `::1`. -/
def Ipv6Addr.LOCALHOST : Ipv6Addr := Ipv6Addr.mk [0, 0, 0, 0, 0, 0, 0, 1]

/-- The `sc_cli` error type (outside the given sources); `rpc_interface` only
builds its `Input` variant. -/
inductive CliError where
  | Input (msg : String)
deriving DecidableEq, Repr

/-- The message of the `Input` error returned by `rpc_interface` (the Rust
string literal after `\`-newline continuation). -/
def rpcExternalValidatorMsg : String :=
  "--rpc-external option shouldn't be used if the node is running as a validator. Use `--unsafe-rpc-external` or `--rpc-methods=unsafe` if you understand the risks. See the options description for more information."

/-- `rpc_interface`: pick the RPC listening interfaces from the external/
validator flags and RPC method policy (the `log::warn!` on the external
branch is incidental and has no effect on the returned value). -/
def rpc_interface (isExternal isUnsafeExternal : Bool)
    (rpc_methods : RpcMethods) (is_validator : Bool) :
    Except CliError (Ipv4Addr × Ipv6Addr) :=
  if isExternal && is_validator && !(rpc_methods == RpcMethods.Unsafe) then
    Except.error (CliError.Input rpcExternalValidatorMsg)
  else if isExternal || isUnsafeExternal then
    Except.ok (Ipv4Addr.UNSPECIFIED, Ipv6Addr.UNSPECIFIED)
  else
    Except.ok (Ipv4Addr.LOCALHOST, Ipv6Addr.LOCALHOST)

/-- C9: `is_node_name_valid name` returns `Ok` if and only if `name` is
non-empty, its character count is strictly below `NODE_NAME_MAX_LENGTH`, it
contains none of the characters backslash, dot and at-sign, and it does not
start with "http:" or "https:" — for every value of the length bound. -/
theorem is_node_name_valid_ok_iff (nodeNameMaxLength : Nat) (name : String) :
    is_node_name_valid nodeNameMaxLength name = Except.ok () ↔
      (name ≠ "" ∧ name.length < nodeNameMaxLength ∧
       (∀ c ∈ name.data, c ≠ '\\' ∧ c ≠ '.' ∧ c ≠ '@') ∧
       ¬ name.startsWith "http:" ∧ ¬ name.startsWith "https:") := by
  constructor
  · intro h
    unfold is_node_name_valid at h
    split_ifs at h with h1 h2 h3 h4 <;> try simp at h
    refine ⟨h1, by omega, ?_, ?_, ?_⟩
    · intro c hc
      refine ⟨?_, ?_, ?_⟩ <;> intro he <;> subst he <;>
        exact h3 (List.any_eq_true.mpr ⟨_, hc, by decide⟩)
    · intro hh
      exact h4 (Bool.or_eq_true _ _ ▸ Or.inl hh)
    · intro hh
      exact h4 (Bool.or_eq_true _ _ ▸ Or.inr hh)
  · rintro ⟨hne, hlen, hchars, hhttp, hhttps⟩
    unfold is_node_name_valid
    rw [if_neg hne, if_neg (by omega), if_neg ?_, if_neg ?_]
    · intro hh
      rcases Bool.or_eq_true _ _ ▸ hh with h | h
      · exact hhttp h
      · exact hhttps h
    · intro hh
      obtain ⟨c, hc, hp⟩ := List.any_eq_true.mp hh
      have hp3 : (c = '\\' ∨ c = '.') ∨ c = '@' := by
        simpa using hp
      obtain ⟨n1, n2, n3⟩ := hchars c hc
      rcases hp3 with h | h
      · rcases h with h | h
        · exact n1 h
        · exact n2 h
      · exact n3 h

/-- C10: `rpc_interface` returns an `Input` error iff `is_external`,
`is_validator` hold and `rpc_methods` is not `Unsafe`; otherwise it returns
the unspecified addresses (0.0.0.0, ::) exactly when `is_external` or
`is_unsafe_external` holds, and the localhost addresses (127.0.0.1, ::1)
otherwise. -/
theorem rpc_interface_spec (isExternal isUnsafeExternal is_validator : Bool)
    (rpc_methods : RpcMethods) :
    ((∃ msg, rpc_interface isExternal isUnsafeExternal rpc_methods is_validator =
        Except.error (CliError.Input msg)) ↔
      (isExternal = true ∧ is_validator = true ∧ rpc_methods ≠ RpcMethods.Unsafe)) ∧
    (rpc_interface isExternal isUnsafeExternal rpc_methods is_validator =
        Except.ok (Ipv4Addr.UNSPECIFIED, Ipv6Addr.UNSPECIFIED) ↔
      (¬(isExternal = true ∧ is_validator = true ∧ rpc_methods ≠ RpcMethods.Unsafe) ∧
        (isExternal = true ∨ isUnsafeExternal = true))) ∧
    (rpc_interface isExternal isUnsafeExternal rpc_methods is_validator =
        Except.ok (Ipv4Addr.LOCALHOST, Ipv6Addr.LOCALHOST) ↔
      (¬(isExternal = true ∧ is_validator = true ∧ rpc_methods ≠ RpcMethods.Unsafe) ∧
        ¬(isExternal = true ∨ isUnsafeExternal = true))) := by
  cases isExternal <;> cases isUnsafeExternal <;> cases is_validator <;>
    cases rpc_methods <;>
    simp [rpc_interface, Ipv4Addr.UNSPECIFIED, Ipv4Addr.LOCALHOST,
      Ipv6Addr.UNSPECIFIED, Ipv6Addr.LOCALHOST]

end RunCmd
